import Mathlib

/-!
Shallow embedding of the timeline/compositing core of the yukkuri video
generator (src/src/video/timeline.py and the timeline-driven parts of
src/src/video/renderer.py).

Modelling conventions:
* Python floats are modelled as exact rationals (ℚ); the properties under
  scrutiny are about exact time arithmetic.
* `pathlib.Path` values are modelled as the strings Python's `str(Path)`
  yields, so the `str`/`Path` conversions in `to_dict`/`from_dict` are the
  identity on the model.
* Methods that mutate a `Timeline` are modelled as functions returning the
  updated `Timeline` (paired with the Python return value).
* `TimelineItem` is a pydantic model in the source; attribute access on it
  is modelled by `TimelineItem.getattr`, which succeeds exactly on the
  field names declared in the class body and raises `AttributeError`
  otherwise (pydantic silently drops unknown constructor kwargs and does
  not create attributes for them).
-/

namespace Yukkuri

/-- `ItemType` enum from timeline.py. -/
inductive ItemType where
  | dialogue
  | background
  | character
  | bgm
  | sfx
  | transition
deriving DecidableEq, Repr

/-- The string value of the `str`-valued enum member (`ItemType.DIALOGUE.value` etc.). -/
def ItemType.value : ItemType → String
  | .dialogue => "dialogue"
  | .background => "background"
  | .character => "character"
  | .bgm => "bgm"
  | .sfx => "sfx"
  | .transition => "transition"

/-- `TimelineItem` pydantic model from timeline.py, with its declared fields
and their defaults.  `metadata` is an open string map in the source; its
contents are never interpreted, so it is modelled as an association list. -/
structure TimelineItem where
  id : String
  type : ItemType
  start_time : ℚ
  duration : ℚ
  text : Option String := none
  character : Option String := none
  expression : Option String := none
  audio_path : Option String := none
  image_path : Option String := none
  position : Option (Int × Int) := none
  scale : ℚ := 1
  opacity : ℚ := 1
  fade_in : ℚ := 0
  fade_out : ℚ := 0
  layer : Int := 0
  metadata : List (String × String) := []
deriving DecidableEq, Repr

/-- `end_time` property: `start_time + duration`, recomputed on read. -/
def TimelineItem.end_time (i : TimelineItem) : ℚ :=
  i.start_time + i.duration

/-- `overlaps`: whether two items' time intervals intersect. -/
def TimelineItem.overlaps (a b : TimelineItem) : Bool :=
  decide (a.start_time < b.end_time) && decide (b.start_time < a.end_time)

/-- `Timeline` aggregate: the `items` list and the private id counter. -/
structure Timeline where
  items : List TimelineItem := []
  id_counter : Nat := 0
deriving DecidableEq, Repr

/-- Python `f"{n:04d}"`: decimal digits left-padded with zeros to width 4. -/
def pad4 (n : Nat) : String :=
  let s := toString n
  String.mk (List.replicate (4 - s.length) '0') ++ s

/-- `Timeline._generate_id`: bump the counter and produce `f"{prefix}_{counter:04d}"`. -/
def Timeline.generate_id (t : Timeline) (pre : String) : String × Timeline :=
  let c := t.id_counter + 1
  (pre ++ "_" ++ pad4 c, { t with id_counter := c })

/-- `Timeline.add_item`: generate an id only when `item.id` is falsy (the
empty string), then append; returns the (possibly id-mutated) item. -/
def Timeline.add_item (t : Timeline) (item : TimelineItem) : TimelineItem × Timeline :=
  if item.id = "" then
    let p := t.generate_id item.type.value
    let item1 := { item with id := p.1 }
    (item1, { p.2 with items := p.2.items ++ [item1] })
  else
    (item, { t with items := t.items ++ [item] })

/-- `Timeline.add_dialogue`. -/
def Timeline.add_dialogue (t : Timeline) (text character : String)
    (start_time duration : ℚ) (audio_path : Option String)
    (expression : String) : TimelineItem × Timeline :=
  let p := t.generate_id "dialogue"
  p.2.add_item
    { id := p.1
      type := .dialogue
      start_time := start_time
      duration := duration
      text := some text
      character := some character
      expression := some expression
      audio_path := audio_path
      layer := 10 }

/-- `Timeline.add_background`. -/
def Timeline.add_background (t : Timeline) (image_path : String)
    (start_time duration : ℚ) : TimelineItem × Timeline :=
  let p := t.generate_id "bg"
  p.2.add_item
    { id := p.1
      type := .background
      start_time := start_time
      duration := duration
      image_path := some image_path
      layer := 0 }

/-- `Timeline.add_character`. -/
def Timeline.add_character (t : Timeline) (character expression : String)
    (start_time duration : ℚ) (image_path : Option String)
    (position : Option (Int × Int)) : TimelineItem × Timeline :=
  let p := t.generate_id "char"
  p.2.add_item
    { id := p.1
      type := .character
      start_time := start_time
      duration := duration
      character := some character
      expression := some expression
      image_path := image_path
      position := position
      layer := 5 }

/-- `Timeline.add_bgm`. -/
def Timeline.add_bgm (t : Timeline) (audio_path : String)
    (start_time duration fade_in fade_out : ℚ) : TimelineItem × Timeline :=
  let p := t.generate_id "bgm"
  p.2.add_item
    { id := p.1
      type := .bgm
      start_time := start_time
      duration := duration
      audio_path := some audio_path
      fade_in := fade_in
      fade_out := fade_out
      layer := 0 }

/-- `Timeline.add_sfx` (duration is a 1.0s placeholder in the source). -/
def Timeline.add_sfx (t : Timeline) (audio_path : String)
    (start_time : ℚ) : TimelineItem × Timeline :=
  let p := t.generate_id "sfx"
  p.2.add_item
    { id := p.1
      type := .sfx
      start_time := start_time
      duration := 1
      audio_path := some audio_path
      layer := 1 }

/-- `Timeline.get_items_at`: items whose half-open interval contains `time`. -/
def Timeline.get_items_at (t : Timeline) (time : ℚ) : List TimelineItem :=
  t.items.filter fun i => decide (i.start_time ≤ time) && decide (time < i.end_time)

/-- `Timeline.get_items_by_type`. -/
def Timeline.get_items_by_type (t : Timeline) (ty : ItemType) : List TimelineItem :=
  t.items.filter fun i => decide (i.type = ty)

/-- `Timeline.get_items_by_character`. -/
def Timeline.get_items_by_character (t : Timeline) (c : String) : List TimelineItem :=
  t.items.filter fun i => decide (i.character = some c)

/-- `Timeline.get_total_duration`: 0 for an empty timeline, else the maximum `end_time`. -/
def Timeline.get_total_duration (t : Timeline) : ℚ :=
  match t.items.map TimelineItem.end_time with
  | [] => 0
  | x :: xs => xs.foldl max x

/-- `Timeline.get_items_in_range`: strict-inequality interval intersection. -/
def Timeline.get_items_in_range (t : Timeline) (s e : ℚ) : List TimelineItem :=
  t.items.filter fun i => decide (i.start_time < e) && decide (s < i.end_time)

/-- `Timeline.sort_by_layer`: a new list sorted by layer (Python `sorted` is a
stable merge sort, matched by `List.mergeSort`). -/
def Timeline.sort_by_layer (t : Timeline) : List TimelineItem :=
  t.items.mergeSort fun a b => decide (a.layer ≤ b.layer)

/-- `Timeline.sort_by_time`: a new list sorted by start time (stable). -/
def Timeline.sort_by_time (t : Timeline) : List TimelineItem :=
  t.items.mergeSort fun a b => decide (a.start_time ≤ b.start_time)

/-- Helper for `Timeline.remove_item`: the Python index loop that pops the
first item whose id matches, or leaves the list alone. -/
def removeFirst (iid : String) : List TimelineItem → Option (List TimelineItem)
  | [] => none
  | x :: xs =>
    if x.id = iid then some xs
    else (removeFirst iid xs).map fun l => x :: l

/-- `Timeline.remove_item`: remove the first match, reporting whether a
removal occurred. -/
def Timeline.remove_item (t : Timeline) (iid : String) : Bool × Timeline :=
  match removeFirst iid t.items with
  | some l => (true, { t with items := l })
  | none => (false, t)

/-- `Timeline.clear`: drop all items and reset the counter. -/
def Timeline.clear (t : Timeline) : Timeline :=
  { t with items := [], id_counter := 0 }

/-- The dictionary produced by `Timeline.to_dict` / consumed by
`Timeline.from_dict`.  Item entries coincide with `TimelineItem` because the
`str(Path)` and `tuple(position)` conversions are the identity under the
path-as-string modelling. -/
structure TimelineDict where
  total_duration : ℚ
  items : List TimelineItem
deriving DecidableEq, Repr

/-- `Timeline.to_dict`: total duration plus the items sorted by start time
(each dumped with paths stringified, the identity here). -/
def Timeline.to_dict (t : Timeline) : TimelineDict :=
  { total_duration := t.get_total_duration
    items := t.sort_by_time }

/-- `Timeline.from_dict`: start from a fresh timeline and re-run every
reconstructed item (paths and position re-wrapped, the identity here)
through `add_item`. -/
def Timeline.from_dict (d : TimelineDict) : Timeline :=
  d.items.foldl (fun tl itemData => (tl.add_item itemData).2) {}

/-! Renderer model (src/src/video/renderer.py, timeline-driven parts). -/

/-- A Python attribute value of a `TimelineItem`, as seen through pydantic
attribute access. -/
inductive PyValue where
  | str (s : String)
  | itemType (t : ItemType)
  | rat (q : ℚ)
  | int (i : Int)
  | bool (b : Bool)
  | optStr (s : Option String)
  | optPair (p : Option (Int × Int))
  | dict (m : List (String × String))
deriving DecidableEq, Repr

/-- Attribute access `getattr(item, name)` on the pydantic `TimelineItem`
model: each field declared in the class body yields its value; any other
name raises `AttributeError` (pydantic drops unknown constructor kwargs
rather than declaring attributes for them). -/
def TimelineItem.getattr (i : TimelineItem) (name : String) : Except String PyValue :=
  if name = "id" then .ok (.str i.id)
  else if name = "type" then .ok (.itemType i.type)
  else if name = "start_time" then .ok (.rat i.start_time)
  else if name = "duration" then .ok (.rat i.duration)
  else if name = "text" then .ok (.optStr i.text)
  else if name = "character" then .ok (.optStr i.character)
  else if name = "expression" then .ok (.optStr i.expression)
  else if name = "audio_path" then .ok (.optStr i.audio_path)
  else if name = "image_path" then .ok (.optStr i.image_path)
  else if name = "position" then .ok (.optPair i.position)
  else if name = "scale" then .ok (.rat i.scale)
  else if name = "opacity" then .ok (.rat i.opacity)
  else if name = "fade_in" then .ok (.rat i.fade_in)
  else if name = "fade_out" then .ok (.rat i.fade_out)
  else if name = "layer" then .ok (.int i.layer)
  else if name = "metadata" then .ok (.dict i.metadata)
  else .error ("AttributeError: " ++ name)

/-- A PIL image, abstracted to its pixel dimensions and whether an odd
number of horizontal flips has been applied to its content. -/
structure PILImage where
  width : Nat
  height : Nat
  flipped : Bool
deriving DecidableEq, Repr

/-- `img.transpose(Image.Transpose.FLIP_LEFT_RIGHT)`. -/
def PILImage.transposeFlipLR (img : PILImage) : PILImage :=
  { img with flipped := !img.flipped }

/-- `img.resize((w, h), LANCZOS)`. -/
def PILImage.resizeTo (img : PILImage) (w h : Nat) : PILImage :=
  { img with width := w, height := h }

/-- The character clip `create_character_clip` builds: the processed image,
clip timing, and the top-left position derived from the center point. -/
structure CharClip where
  img : PILImage
  duration : ℚ
  pos_x : Int
  pos_y : Int
  fade_in : ℚ
  fade_out : ℚ
  start : ℚ
deriving DecidableEq, Repr

/-- `VideoRenderer.create_character_clip`: load the image, flip when
`flip_horizontal` is set, then scale when `scale != 1.0`, then derive the
top-left draw origin from the requested center position (`//` is Python
floor division on the nonnegative pixel sizes). -/
def create_character_clip (srcW srcH : Nat) (duration : ℚ)
    (position : Int × Int) (scale : ℚ) (fade_in fade_out : ℚ)
    (flip_horizontal : Bool) : CharClip :=
  let img0 : PILImage := { width := srcW, height := srcH, flipped := false }
  let img1 := if flip_horizontal then img0.transposeFlipLR else img0
  let img2 :=
    if scale ≠ 1 then
      img1.resizeTo (Int.toNat ⌊(img1.width : ℚ) * scale⌋)
        (Int.toNat ⌊(img1.height : ℚ) * scale⌋)
    else img1
  { img := img2
    duration := duration
    pos_x := position.1 - (img2.width / 2 : Nat)
    pos_y := position.2 - (img2.height / 2 : Nat)
    fade_in := fade_in
    fade_out := fade_out
    start := 0 }

/-- The per-character-item step of `VideoRenderer.render_from_timeline`:
items without an existing image file are skipped (`none`); otherwise the
render resolves the position default, reads `item.flip_horizontal` and
builds the clip at the item's start time.  `fileExists` models
`Path.exists()` and `imageSize` the size of the opened image. -/
def renderCharacterItem (resolution : Int × Int)
    (fileExists : String → Bool) (imageSize : String → Nat × Nat)
    (item : TimelineItem) : Option (Except String CharClip) :=
  match item.image_path with
  | none => none
  | some p =>
    if fileExists p then
      some (do
        let position := item.position.getD (resolution.1 / 2, resolution.2 / 2)
        let fh ← item.getattr "flip_horizontal"
        let flip := match fh with
          | .bool b => b
          | _ => false
        let sz := imageSize p
        let clip := create_character_clip sz.1 sz.2 item.duration position
          item.scale item.fade_in item.fade_out flip
        pure { clip with start := item.start_time })
    else none

/-- `concatenate_audioclips` on clips of the given lengths yields a clip of
the summed length. -/
def concatenate_audioclips_len (lens : List ℚ) : ℚ := lens.sum

/-- `clip.subclip(s, e)` on a clip of length `clipLen`: a clip of length
`e - s`, meaningful only when the requested end lies inside the clip. -/
def audio_subclip_len (clipLen s e : ℚ) : Except String ℚ :=
  if e ≤ clipLen then .ok (e - s) else .error "subclip end beyond clip duration"

/-- `int(item.duration / audio.duration) + 1`, the loop count
`render_from_timeline` uses for a BGM source shorter than its slot
(Python `int()` truncates toward zero; both durations are positive here). -/
def bgmLoopsNeeded (audioLen itemDur : ℚ) : Nat :=
  Int.toNat ⌊itemDur / audioLen⌋ + 1

/-- Length of the audio `render_from_timeline` builds for a BGM item whose
source audio lasts `audioLen` seconds and whose slot lasts `itemDur`
seconds: loop and truncate when too short, truncate when too long,
keep as-is when equal. -/
def bgmAudioLen (audioLen itemDur : ℚ) : Except String ℚ :=
  if audioLen < itemDur then
    let loops := bgmLoopsNeeded audioLen itemDur
    let concatLen := concatenate_audioclips_len (List.replicate loops audioLen)
    audio_subclip_len concatLen 0 itemDur
  else if audioLen > itemDur then
    audio_subclip_len audioLen 0 itemDur
  else .ok audioLen

/-! Concrete timelines and items used in scenarios and witnesses. -/

/-- The C3 scenario timeline: a dialogue, then a character (layer 5), then a
background (layer 0), each with `start=0, duration=2`, added in that order
through the typed adders. -/
def c3Timeline : Timeline :=
  let s1 := (({} : Timeline).add_dialogue "hello" "reimu" 0 2 none "normal").2
  let s2 := (s1.add_character "reimu" "normal" 0 2 none none).2
  (s2.add_background "bg.png" 0 2).2

/-- A standalone item used in witnesses: 2 seconds of SFX starting at t=3. -/
def witItem : TimelineItem :=
  { id := "w", type := .sfx, start_time := 3, duration := 2, layer := 1 }

/-- A one-item timeline used in witnesses. -/
def witTimeline : Timeline :=
  { items := [witItem], id_counter := 0 }

/-! Theorems. -/

/-- C3: the claim asserts `get_items_at(1.0)` on the dialogue/character/
background scenario returns the items sorted by layer ascending
(Background, Character, Dialogue); in fact the source filters `self.items`
in insertion order and never sorts, so the returned type order is
Dialogue, Character, Background — not the claimed order. -/
theorem c3_get_items_at_order_counterexample :
    (c3Timeline.get_items_at 1).map (fun i => i.type) =
      [ItemType.dialogue, ItemType.character, ItemType.background] ∧
    (c3Timeline.get_items_at 1).map (fun i => i.type) ≠
      [ItemType.background, ItemType.character, ItemType.dialogue] := by
  with_unfolding_all decide

/-- C3 (amended): in the scenario, `get_items_at(1.0)` returns all three
items, in insertion order — Dialogue (layer 10), Character (layer 5),
Background (layer 0) — not sorted by layer. -/
theorem c3_get_items_at_insertion_order :
    (c3Timeline.get_items_at 1).map (fun i => (i.type, i.layer)) =
      [(ItemType.dialogue, 10), (ItemType.character, 5), (ItemType.background, 0)] := by
  with_unfolding_all decide

/-- C4: `get_items_at t` returns exactly the items with
`start_time ≤ t < end_time` where `end_time = start_time + duration`; in
particular an item with positive duration is included at its start and
excluded at its end (half-open boundary). -/
theorem c4_get_items_at_half_open (tl : Timeline) (t : ℚ) (i : TimelineItem) :
    (i ∈ tl.get_items_at t ↔ i ∈ tl.items ∧ i.start_time ≤ t ∧ t < i.end_time) ∧
    i.end_time = i.start_time + i.duration ∧
    (i ∈ tl.items → 0 < i.duration →
      i ∈ tl.get_items_at i.start_time ∧
      i ∉ tl.get_items_at (i.start_time + i.duration)) := by
  refine ⟨?_, rfl, ?_⟩
  · simp [Timeline.get_items_at, List.mem_filter, and_assoc]
  · intro hi hd
    constructor
    · simp only [Timeline.get_items_at, List.mem_filter, Bool.and_eq_true,
        decide_eq_true_eq, TimelineItem.end_time]
      exact ⟨hi, le_refl _, by linarith⟩
    · simp only [Timeline.get_items_at, List.mem_filter, Bool.and_eq_true,
        decide_eq_true_eq, TimelineItem.end_time, not_and]
      intro _ _ h
      exact absurd h (lt_irrefl _)

/-- C4 witness: the SFX item `[3, 5)` is a member of its timeline, has
positive duration, is returned at t=3 and not at t=3+2. -/
theorem c4_get_items_at_half_open_witness :
    witItem ∈ witTimeline.items ∧ 0 < witItem.duration ∧
    witItem ∈ witTimeline.get_items_at witItem.start_time ∧
    witItem ∉ witTimeline.get_items_at (witItem.start_time + witItem.duration) := by
  refine ⟨by decide, by decide, ?_⟩
  exact (c4_get_items_at_half_open witTimeline 0 witItem).2.2 (by decide) (by decide)

/-- C5: `get_items_in_range start end` returns exactly the items with
`item.start_time < end` and `item.end_time > start`, with strict
inequalities, so an item exactly touching a boundary is excluded. -/
theorem c5_get_items_in_range_strict (tl : Timeline) (s e : ℚ) (i : TimelineItem) :
    (i ∈ tl.get_items_in_range s e ↔
      i ∈ tl.items ∧ i.start_time < e ∧ s < i.end_time) ∧
    (i.end_time = s ∨ i.start_time = e → i ∉ tl.get_items_in_range s e) := by
  have hmem : i ∈ tl.get_items_in_range s e ↔
      i ∈ tl.items ∧ i.start_time < e ∧ s < i.end_time := by
    simp [Timeline.get_items_in_range, List.mem_filter, and_assoc]
  refine ⟨hmem, ?_⟩
  rintro (h | h) hin
  · exact absurd ((hmem.mp hin).2.2) (by rw [h]; exact lt_irrefl s)
  · exact absurd ((hmem.mp hin).2.1) (by rw [h]; exact lt_irrefl e)

/-- C5 witness: the item `[3, 5)` touches the range `[5, 9)` only at its end
point and is excluded from it. -/
theorem c5_get_items_in_range_strict_witness :
    (witItem.end_time = 5 ∨ witItem.start_time = 9) ∧
    witItem ∉ witTimeline.get_items_in_range 5 9 := by
  have h5 : witItem.end_time = 5 ∨ witItem.start_time = 9 :=
    Or.inl (by with_unfolding_all decide)
  exact ⟨h5, (c5_get_items_in_range_strict witTimeline 5 9 witItem).2 h5⟩

/-- C7: `overlaps` is symmetric and holds exactly for half-open interval
intersection. -/
theorem c7_overlaps_symmetric (a b : TimelineItem) :
    a.overlaps b = b.overlaps a ∧
    (a.overlaps b = true ↔
      a.start_time < b.end_time ∧ b.start_time < a.end_time) := by
  constructor
  · simp only [TimelineItem.overlaps]
    exact Bool.and_comm _ _
  · simp [TimelineItem.overlaps]

/-- `removeFirst` finds nothing exactly when no item's id matches. -/
theorem removeFirst_eq_none_iff (iid : String) (l : List TimelineItem) :
    removeFirst iid l = none ↔ ∀ i ∈ l, i.id ≠ iid := by
  induction l with
  | nil => simp [removeFirst]
  | cons x xs ih =>
    by_cases hx : x.id = iid
    · simp [removeFirst, hx]
    · simp [removeFirst, hx, Option.map_eq_none, ih]

/-- `removeFirst` on a list whose first match is `x` drops exactly `x`. -/
theorem removeFirst_append_first_match (iid : String) (pre : List TimelineItem)
    (x : TimelineItem) (post : List TimelineItem) (hx : x.id = iid)
    (hpre : ∀ y ∈ pre, y.id ≠ iid) :
    removeFirst iid (pre ++ x :: post) = some (pre ++ post) := by
  induction pre with
  | nil => simp [removeFirst, hx]
  | cons y ys ih =>
    have hy : y.id ≠ iid := hpre y (by simp)
    have ih2 := ih fun z hz => hpre z (by simp [hz])
    simp [removeFirst, hy, ih2]

/-- C8: `remove_item` reports `true` exactly when some item's id matches;
when none matches it returns `false` and leaves the timeline unchanged, and
when a first match exists it removes exactly that item. -/
theorem c8_remove_item_first_match (tl : Timeline) (iid : String) :
    ((tl.remove_item iid).1 = true ↔ ∃ i ∈ tl.items, i.id = iid) ∧
    ((∀ i ∈ tl.items, i.id ≠ iid) →
      (tl.remove_item iid).1 = false ∧ (tl.remove_item iid).2 = tl) ∧
    (∀ pre x post, tl.items = pre ++ x :: post → x.id = iid →
      (∀ y ∈ pre, y.id ≠ iid) →
      (tl.remove_item iid).1 = true ∧ (tl.remove_item iid).2.items = pre ++ post) := by
  refine ⟨?_, ?_, ?_⟩
  · constructor
    · intro h
      by_contra hno
      push_neg at hno
      have := (removeFirst_eq_none_iff iid tl.items).mpr hno
      simp [Timeline.remove_item, this] at h
    · rintro ⟨i, hi, hid⟩
      rcases h : removeFirst iid tl.items with _ | l
      · exact absurd hid ((removeFirst_eq_none_iff iid tl.items).mp h i hi)
      · simp [Timeline.remove_item, h]
  · intro hno
    have h := (removeFirst_eq_none_iff iid tl.items).mpr hno
    simp [Timeline.remove_item, h]
  · intro pre x post hsplit hx hpre
    have h : removeFirst iid tl.items = some (pre ++ post) := by
      rw [hsplit]
      exact removeFirst_append_first_match iid pre x post hx hpre
    simp [Timeline.remove_item, h]

/-- C8 witness: removing the absent id "zzz" from the one-item timeline
returns false and leaves the timeline unchanged; removing the present id
"w" returns true and removes that item. -/
theorem c8_remove_item_first_match_witness :
    (∀ i ∈ witTimeline.items, i.id ≠ "zzz") ∧
    (witTimeline.remove_item "zzz").1 = false ∧
    (witTimeline.remove_item "zzz").2 = witTimeline ∧
    witTimeline.items = [] ++ witItem :: [] ∧ witItem.id = "w" ∧
    (witTimeline.remove_item "w").1 = true ∧
    (witTimeline.remove_item "w").2.items = [] ++ [] := by
  have habs : ∀ i ∈ witTimeline.items, i.id ≠ "zzz" := by decide
  have h1 := (c8_remove_item_first_match witTimeline "zzz").2.1 habs
  have h2 := (c8_remove_item_first_match witTimeline "w").2.2 [] witItem []
    rfl rfl (by decide)
  exact ⟨habs, h1.1, h1.2, rfl, rfl, h2.1, h2.2⟩

/-- C9: a BGM item whose source audio lasts `0 < a < d` seconds is rendered
as `int(d/a) + 1` concatenated copies — always at least `d` seconds — then
truncated to exactly `d`; a source longer than `d` is truncated to `d`. -/
theorem c9_bgm_looped_to_duration (a d : ℚ) (ha : 0 < a) :
    (a < d → d ≤ (bgmLoopsNeeded a d : ℚ) * a ∧ bgmAudioLen a d = Except.ok d) ∧
    (d < a → bgmAudioLen a d = Except.ok d) := by
  constructor
  · intro had
    have h0 : (0 : ℚ) < d / a := div_pos (ha.trans had) ha
    have hfl : (0 : ℤ) ≤ ⌊d / a⌋ := Int.floor_nonneg.mpr h0.le
    have hnat : ((⌊d / a⌋.toNat : ℕ) : ℚ) = ((⌊d / a⌋ : ℤ) : ℚ) := by
      exact_mod_cast Int.toNat_of_nonneg hfl
    have hcast : ((bgmLoopsNeeded a d : ℕ) : ℚ) = (⌊d / a⌋ : ℚ) + 1 := by
      simp only [bgmLoopsNeeded, Nat.cast_add, Nat.cast_one, hnat]
    have hlt : d < ((bgmLoopsNeeded a d : ℕ) : ℚ) * a := by
      have h1 : d / a < (⌊d / a⌋ : ℚ) + 1 := Int.lt_floor_add_one _
      have h2 : d / a * a < ((⌊d / a⌋ : ℚ) + 1) * a :=
        mul_lt_mul_of_pos_right h1 ha
      rw [div_mul_cancel₀ d ha.ne'] at h2
      rw [hcast]
      exact h2
    refine ⟨hlt.le, ?_⟩
    have hsum : concatenate_audioclips_len (List.replicate (bgmLoopsNeeded a d) a)
        = (bgmLoopsNeeded a d : ℚ) * a := by
      simp [concatenate_audioclips_len, List.sum_replicate, nsmul_eq_mul]
    simp only [bgmAudioLen, audio_subclip_len]
    rw [if_pos had, hsum, if_pos hlt.le, sub_zero]
  · intro hda
    simp only [bgmAudioLen, audio_subclip_len]
    rw [if_neg (not_lt_of_gt hda), if_pos hda, if_pos hda.le, sub_zero]

/-- C9 witness: 4 seconds of source audio scheduled for 10 seconds is looped
int(10/4)+1 = 3 times (12 s, enough) and truncated to exactly 10 seconds. -/
theorem c9_bgm_looped_to_duration_witness :
    (0 : ℚ) < 4 ∧ (4 : ℚ) < 10 ∧
    (10 : ℚ) ≤ (bgmLoopsNeeded 4 10 : ℚ) * 4 ∧
    bgmAudioLen 4 10 = Except.ok 10 := by
  have h := (c9_bgm_looped_to_duration 4 10 (by norm_num)).1 (by norm_num)
  exact ⟨by norm_num, by norm_num, h.1, h.2⟩

/-- `add_item` on an item with a non-empty id appends it untouched and
leaves the counter alone. -/
theorem add_item_keeps_nonempty_id (t : Timeline) (item : TimelineItem)
    (h : item.id ≠ "") :
    t.add_item item = (item, { t with items := t.items ++ [item] }) := by
  simp [Timeline.add_item, h]

/-- Folding `add_item` over items with non-empty ids appends them all in
order and never advances the counter. -/
theorem foldl_add_item_nonempty (l : List TimelineItem) (t : Timeline)
    (h : ∀ i ∈ l, i.id ≠ "") :
    l.foldl (fun tl itemData => (tl.add_item itemData).2) t =
      { items := t.items ++ l, id_counter := t.id_counter } := by
  induction l generalizing t with
  | nil => simp
  | cons x xs ih =>
    have hx : x.id ≠ "" := h x (by simp)
    have hstep : (t.add_item x).2 = { t with items := t.items ++ [x] } := by
      simp [Timeline.add_item, hx]
    rw [List.foldl_cons, hstep, ih _ fun i hi => h i (by simp [hi])]
    simp

/-- `from_dict` on data whose stored ids are all non-empty reproduces the
stored items verbatim with the counter still 0. -/
theorem from_dict_items_nonempty (d : TimelineDict)
    (h : ∀ i ∈ d.items, i.id ≠ "") :
    Timeline.from_dict d = { items := d.items, id_counter := 0 } := by
  rw [Timeline.from_dict, foldl_add_item_nonempty d.items {} h]
  simp

/-- A serialized dialogue item carrying the stored id "dialogue_0042". -/
def c2StoredItem : TimelineItem :=
  { id := "dialogue_0042", type := .dialogue, start_time := 0, duration := 2,
    text := some "t", character := some "reimu", expression := some "normal",
    layer := 10 }

/-- A serialized timeline dict holding `c2StoredItem`. -/
def c2Dict : TimelineDict := { total_duration := 2, items := [c2StoredItem] }

/-- C2: the claim asserts that loading reassigns item ids per the normal
addition rules instead of keeping the stored ones; in fact `add_item` only
generates an id for an empty one, so the loaded item keeps the stored id
"dialogue_0042" (a fresh timeline's generator would have produced
"dialogue_0001") and the counter stays 0. -/
theorem c2_stored_id_kept_counterexample :
    (Timeline.from_dict c2Dict).items.map (fun i => i.id) = ["dialogue_0042"] ∧
    (Timeline.from_dict c2Dict).id_counter = 0 ∧
    "dialogue_0042" ≠ "dialogue_0001" := by
  with_unfolding_all decide

/-- C2 (amended): `from_dict` does re-run every reconstructed item through
`add_item`, but `add_item` keeps any non-empty id, so the loaded items are
exactly the stored ones — stored ids survive — and the id counter stays at
its initial value 0. -/
theorem c2_from_dict_preserves_stored_ids (d : TimelineDict)
    (h : ∀ i ∈ d.items, i.id ≠ "") :
    (Timeline.from_dict d).items = d.items ∧
    (Timeline.from_dict d).items.map (fun i => i.id) =
      d.items.map (fun i => i.id) ∧
    (Timeline.from_dict d).id_counter = 0 := by
  rw [from_dict_items_nonempty d h]
  exact ⟨rfl, rfl, rfl⟩

/-- C2 witness: the amended claim evaluated on the concrete dict. -/
theorem c2_from_dict_preserves_stored_ids_witness :
    (∀ i ∈ c2Dict.items, i.id ≠ "") ∧
    (Timeline.from_dict c2Dict).items = c2Dict.items ∧
    (Timeline.from_dict c2Dict).id_counter = 0 := by
  have h : ∀ i ∈ c2Dict.items, i.id ≠ "" := by decide
  have hc := c2_from_dict_preserves_stored_ids c2Dict h
  exact ⟨h, hc.1, hc.2.2⟩

/-- A serialized dialogue item carrying the stored id "dialogue_0001", the
very id a fresh generator produces first. -/
def c10StoredItem : TimelineItem :=
  { id := "dialogue_0001", type := .dialogue, start_time := 0, duration := 2,
    text := some "t", character := some "reimu", expression := some "normal",
    layer := 10 }

/-- A serialized timeline dict holding `c10StoredItem`. -/
def c10Dict : TimelineDict := { total_duration := 2, items := [c10StoredItem] }

/-- C10: loading leaves the id counter at 0 for any data whose stored ids
are non-empty, so a subsequent `add_dialogue` on the timeline loaded from
`c10Dict` generates "dialogue_0001" again and id uniqueness is violated. -/
theorem c10_from_dict_counter_collision :
    (∀ d : TimelineDict, (∀ i ∈ d.items, i.id ≠ "") →
      (Timeline.from_dict d).id_counter = 0) ∧
    ((Timeline.from_dict c10Dict).add_dialogue "hi" "reimu" 5 2 none "normal").1.id
      = "dialogue_0001" ∧
    ¬ ((((Timeline.from_dict c10Dict).add_dialogue "hi" "reimu" 5 2 none
        "normal").2.items.map (fun i => i.id)).Nodup) := by
  refine ⟨?_, ?_, ?_⟩
  · intro d h
    rw [from_dict_items_nonempty d h]
  · with_unfolding_all rfl
  · with_unfolding_all decide

/-- C10 witness: the universally quantified counter statement evaluated on
the concrete dict. -/
theorem c10_from_dict_counter_collision_witness :
    (∀ i ∈ c10Dict.items, i.id ≠ "") ∧
    (Timeline.from_dict c10Dict).id_counter = 0 := by
  have h : ∀ i ∈ c10Dict.items, i.id ≠ "" := by decide
  exact ⟨h, c10_from_dict_counter_collision.1 c10Dict h⟩

/-- Two distinct items that share the id "x" (reachable through `add_item`,
which keeps any non-empty id as-is). -/
def c6DupItem1 : TimelineItem :=
  { id := "x", type := .dialogue, start_time := 0, duration := 1 }

/-- Second item sharing the id "x". -/
def c6DupItem2 : TimelineItem :=
  { id := "x", type := .character, start_time := 1, duration := 1 }

/-- A timeline holding two items with the same id "x". -/
def c6DupTimeline : Timeline :=
  ((({} : Timeline).add_item c6DupItem1).2.add_item c6DupItem2).2

/-- C6: the claim quantifies over every Timeline, but a timeline with
duplicate ids (reachable through `add_item`) round-trips with the
duplicates intact, so the loaded ids are not pairwise unique. -/
theorem c6_roundtrip_duplicate_ids_counterexample :
    (Timeline.from_dict c6DupTimeline.to_dict).items.map (fun i => i.id)
      = ["x", "x"] ∧
    ¬ ((Timeline.from_dict c6DupTimeline.to_dict).items.map
        (fun i => i.id)).Nodup := by
  with_unfolding_all decide

/-- C6 (amended): for every Timeline whose item ids are non-empty and
pairwise distinct, `from_dict (to_dict tl)` preserves the item count, the
multiset of (type, start_time, duration, position) values, and yields items
whose ids are all present (non-empty) and pairwise unique. -/
theorem c6_roundtrip_preserves (tl : Timeline)
    (hne : ∀ i ∈ tl.items, i.id ≠ "")
    (hnd : (tl.items.map (fun i => i.id)).Nodup) :
    (Timeline.from_dict tl.to_dict).items.length = tl.items.length ∧
    ((Timeline.from_dict tl.to_dict).items.map
        (fun i => (i.type, i.start_time, i.duration, i.position))).Perm
      (tl.items.map (fun i => (i.type, i.start_time, i.duration, i.position))) ∧
    (∀ i ∈ (Timeline.from_dict tl.to_dict).items, i.id ≠ "") ∧
    ((Timeline.from_dict tl.to_dict).items.map (fun i => i.id)).Nodup := by
  have hperm : (tl.items.mergeSort
      (fun a b => decide (a.start_time ≤ b.start_time))).Perm tl.items :=
    List.mergeSort_perm tl.items _
  have hs : ∀ i ∈ tl.to_dict.items, i.id ≠ "" := by
    intro i hi
    exact hne i (hperm.subset hi)
  have hitems : (Timeline.from_dict tl.to_dict).items =
      tl.items.mergeSort (fun a b => decide (a.start_time ≤ b.start_time)) := by
    rw [from_dict_items_nonempty tl.to_dict hs]
    rfl
  rw [hitems]
  refine ⟨hperm.length_eq, hperm.map _, ?_, ?_⟩
  · intro i hi
    exact hne i (hperm.subset hi)
  · exact ((hperm.map (fun i => i.id)).nodup_iff).mpr hnd

/-- A dialogue item with unique id "a1". -/
def c6Item1 : TimelineItem :=
  { id := "a1", type := .dialogue, start_time := 3, duration := 1 }

/-- A background item with unique id "b2". -/
def c6Item2 : TimelineItem :=
  { id := "b2", type := .background, start_time := 0, duration := 5,
    image_path := some "bg.png" }

/-- A timeline with two items, distinct non-empty ids, out of time order. -/
def c6Timeline : Timeline := { items := [c6Item1, c6Item2], id_counter := 0 }

/-- C6 witness: the amended round-trip claim evaluated on the concrete
two-item timeline. -/
theorem c6_roundtrip_preserves_witness :
    (∀ i ∈ c6Timeline.items, i.id ≠ "") ∧
    (c6Timeline.items.map (fun i => i.id)).Nodup ∧
    (Timeline.from_dict c6Timeline.to_dict).items.length
      = c6Timeline.items.length ∧
    ((Timeline.from_dict c6Timeline.to_dict).items.map (fun i => i.id)).Nodup := by
  have h1 : ∀ i ∈ c6Timeline.items, i.id ≠ "" := by decide
  have h2 : (c6Timeline.items.map (fun i => i.id)).Nodup := by decide
  have h := c6_roundtrip_preserves c6Timeline h1 h2
  exact ⟨h1, h2, h.1, h.2.2.2⟩

/-- Attribute access for the name "flip_horizontal" raises AttributeError on
every `TimelineItem`: it is not among the declared fields. -/
theorem getattr_flip_horizontal (i : TimelineItem) :
    i.getattr "flip_horizontal" = Except.error "AttributeError: flip_horizontal" :=
  rfl

/-- The image path used by the C1 failing input. -/
def c1Path : String := "assets/reimu/normal.png"

/-- The C1 failing input: a CHARACTER item with an existing image, as
`main.py` builds (its `flip_horizontal=True` kwarg is dropped by pydantic,
which ignores unknown constructor kwargs). -/
def c1CharItem : TimelineItem :=
  { id := "char_0001", type := .character, start_time := 0, duration := 2,
    character := some "reimu", expression := some "normal",
    image_path := some c1Path, position := some (350, 650), scale := 9 / 10,
    layer := 5 }

/-- C1: for every character item with an existing image file, the
full-duration render's character step evaluates `item.flip_horizontal`,
which is not a declared `TimelineItem` field, so it raises AttributeError
instead of building a flipped or unflipped clip; in particular it does so
on the concrete item `c1CharItem`. -/
theorem c1_render_flip_attribute_error :
    (∀ (res : Int × Int) (fe : String → Bool) (isz : String → Nat × Nat)
      (item : TimelineItem) (p : String),
      item.image_path = some p → fe p = true →
      renderCharacterItem res fe isz item =
        some (Except.error "AttributeError: flip_horizontal")) ∧
    renderCharacterItem (1920, 1080) (fun _ => true) (fun _ => (300, 400))
      c1CharItem = some (Except.error "AttributeError: flip_horizontal") := by
  constructor
  · intro res fe isz item p hp hfe
    simp [renderCharacterItem, hp, hfe, getattr_flip_horizontal]
  · with_unfolding_all rfl

/-- C1 witness: the render step evaluated at the concrete failing input. -/
theorem c1_render_flip_attribute_error_witness :
    c1CharItem.image_path = some c1Path ∧
    (fun _ : String => true) c1Path = true ∧
    renderCharacterItem (1920, 1080) (fun _ => true) (fun _ => (300, 400))
      c1CharItem = some (Except.error "AttributeError: flip_horizontal") :=
  ⟨rfl, rfl,
    c1_render_flip_attribute_error.1 (1920, 1080) (fun _ => true)
      (fun _ => (300, 400)) c1CharItem c1Path rfl rfl⟩

end Yukkuri
